import Mathlib

/-!
Verification development for pyods (src/pyods/cli.py), an open-directory
scraper.  The file shallowly embeds the parts of the program the claims
refer to: the URL canonicalizer clean_url (urllib.parse urlsplit and
urlunsplit), link resolution (urllib.parse.urljoin), percent decoding
(urllib.parse.unquote, ASCII escapes), the local path computation
(posixpath join and normpath), glob exclusion (fnmatch), the resumable
file writer stream_to_file, the per URL step of scrape_url, the recursive
crawl, and the semaphore based download scheduler.  Strings are handled
through explicit List Char recursion so every definition evaluates by
kernel reduction.
-/

set_option maxRecDepth 16384

namespace Pyods

/-! ### Character and string helpers (models of Python str operations) -/

/-- Model of Python str.startswith: character level list inclusion. -/
def strStartsWith (s p : String) : Bool :=
  p.data.isPrefixOf s.data

/-- Model of Python slicing s[n:] (n counted in characters). -/
def strDrop (s : String) (n : Nat) : String :=
  String.mk (s.data.drop n)

/-- Model of Python len(s) in characters. -/
def strLen (s : String) : Nat :=
  s.data.length

/-- Model of the Python substring test (sub in s). -/
def strContains (s sub : String) : Bool :=
  s.data.tails.any (fun t => sub.data.isPrefixOf t)

/-- Model of Python str.split(sep) for a one character separator, on the
character list: empty components are kept and the empty string splits to
one empty component, as in Python. -/
def splitCharList (sep : Char) : List Char → List (List Char)
  | [] => [[]]
  | c :: cs =>
    let r := splitCharList sep cs
    if c = sep then [] :: r
    else
      match r with
      | h :: t => (c :: h) :: t
      | [] => [[c]]

/-- Model of Python str.split for a one character separator, producing
strings. -/
def strSplit (sep : Char) (s : String) : List String :=
  (splitCharList sep s.data).map String.mk

/-- Model of sep.join(parts) for the one character separator given. -/
def strJoin (sep : Char) : List String → String
  | [] => ""
  | [s] => s
  | s :: rest => s ++ String.mk [sep] ++ strJoin sep rest

/-- Whitespace test used by Python str.strip with no argument (ASCII
whitespace). -/
def isSpaceChar (c : Char) : Bool :=
  c = ' ' || c = '\t' || c = '\n' || c = '\x0d' || c = '\x0b' || c = '\x0c'

/-- Model of Python str.strip() restricted to ASCII whitespace. -/
def pyStrip (s : String) : String :=
  String.mk (((s.data.dropWhile isSpaceChar).reverse.dropWhile isSpaceChar).reverse)

/-- Index of the first occurrence of a character, as Python str.find when
the result is used only on success. -/
def findCharIdx (ch : Char) : List Char → Option Nat
  | [] => none
  | c :: cs => if c = ch then some 0 else (findCharIdx ch cs).map (· + 1)

/-- Split a character list at the first occurrence of ch, dropping it, as
Python s.split(ch, 1) when ch occurs. -/
def splitOnFirstChar (ch : Char) : List Char → Option (List Char × List Char)
  | [] => none
  | c :: cs =>
    if c = ch then some ([], cs)
    else
      match splitOnFirstChar ch cs with
      | some p => some (c :: p.1, p.2)
      | none => none

/-- Take characters until one of the stop characters is met; returns the
taken part and the rest (which begins with the stop character).  Models
the helper that urllib.parse uses to delimit the netloc. -/
def takeUntilAny (stops : List Char) : List Char → List Char × List Char
  | [] => ([], [])
  | c :: cs =>
    if c ∈ stops then ([], c :: cs)
    else
      let p := takeUntilAny stops cs
      (c :: p.1, p.2)

/-! ### Percent decoding (urllib.parse.unquote, cli.py line 126) -/

/-- Value of one hexadecimal digit. -/
def hexVal (c : Char) : Option Nat :=
  if '0' ≤ c ∧ c ≤ '9' then some (c.toNat - '0'.toNat)
  else if 'a' ≤ c ∧ c ≤ 'f' then some (c.toNat - 'a'.toNat + 10)
  else if 'A' ≤ c ∧ c ≤ 'F' then some (c.toNat - 'A'.toNat + 10)
  else none

/-- Model of urllib.parse.unquote on the character list: a percent sign
followed by two hex digits decodes to the escaped byte, an invalid escape
is left as written.  Multi byte UTF-8 escapes are decoded byte by byte,
which agrees with Python on the ASCII range used by the claims. -/
def unquoteChars : List Char → List Char
  | [] => []
  | '%' :: a :: b :: rest =>
    match hexVal a, hexVal b with
    | some x, some y => Char.ofNat (16 * x + y) :: unquoteChars rest
    | _, _ => '%' :: unquoteChars (a :: b :: rest)
  | c :: rest => c :: unquoteChars rest

/-- Model of urllib.parse.unquote on strings. -/
def pyUnquote (s : String) : String :=
  String.mk (unquoteChars s.data)

/-! ### posixpath join and normpath (cli.py lines 127 and 178) -/

/-- Model of os.path.join on posix for two arguments: an absolute second
argument replaces the first, otherwise the parts are joined with one
slash. -/
def pyJoin (a b : String) : String :=
  if strStartsWith b "/" then b
  else if a = "" || a.data.getLast? = some '/' then a ++ b
  else a ++ "/" ++ b

/-- Number of leading slashes that posixpath.normpath preserves: exactly
two leading slashes are kept, any other number collapses to one. -/
def normpathInitialSlashes (cs : List Char) : Nat :=
  match cs with
  | '/' :: '/' :: '/' :: _ => 1
  | '/' :: '/' :: _ => 2
  | '/' :: _ => 1
  | _ => 0

/-- Model of posixpath.normpath: split on slashes, drop empty and dot
components, resolve dotdot against the accumulated components exactly as
the Python loop does, and reattach the preserved leading slashes. -/
def pyNormpath (path : String) : String :=
  if path = "" then "."
  else
    let initialSlashes := normpathInitialSlashes path.data
    let comps := strSplit '/' path
    let newComps := comps.foldl
      (fun acc comp =>
        if comp = "" || comp = "." then acc
        else if comp ≠ ".." ∨ (initialSlashes = 0 ∧ acc = []) ∨ acc.getLast? = some ".." then
          acc ++ [comp]
        else acc.dropLast)
      []
    let joined := strJoin '/' newComps
    let full := String.mk (List.replicate initialSlashes '/') ++ joined
    if full = "" then "." else full

/-! ### urllib.parse: urlsplit, urlunsplit, and the canonicalizer
clean_url (cli.py lines 34 to 38) -/

/-- The five components returned by urllib.parse.urlsplit. -/
structure SplitResult where
  scheme : String
  netloc : String
  path : String
  query : String
  fragment : String
deriving DecidableEq, Repr

/-- Characters allowed in a scheme by urllib.parse (ASCII letters, digits,
plus, minus, dot). -/
def schemeChar (c : Char) : Bool :=
  c.isAlpha || c.isDigit || c = '+' || c = '-' || c = '.'

/-- Model of urllib.parse.urlsplit with a default scheme, following the
Python 3.5 implementation the program runs on: a candidate scheme before
the first colon is accepted when it is the literal http, or when it is
made of scheme characters and the remainder is not a pure port number;
the netloc follows a double slash up to the first slash, question mark or
hash; the fragment is everything after the first hash; the query is
everything after the first question mark of what remains. -/
def pyUrlsplitD (url defscheme : String) : SplitResult :=
  let cs := url.data
  let schemeRest : List Char × List Char :=
    match findCharIdx ':' cs with
    | some i =>
      if 0 < i then
        let sch := cs.take i
        let rest := cs.drop (i + 1)
        if sch = "http".data then (sch.map Char.toLower, rest)
        else if sch.all schemeChar ∧ (rest = [] ∨ rest.any (fun c => !c.isDigit)) then
          (sch.map Char.toLower, rest)
        else (defscheme.data, cs)
      else (defscheme.data, cs)
    | none => (defscheme.data, cs)
  let netlocRest : List Char × List Char :=
    match schemeRest.2 with
    | '/' :: '/' :: rs => takeUntilAny ['/', '?', '#'] rs
    | other => ([], other)
  let prefragFrag : List Char × List Char :=
    match splitOnFirstChar '#' netlocRest.2 with
    | some p => p
    | none => (netlocRest.2, [])
  let pathQuery : List Char × List Char :=
    match splitOnFirstChar '?' prefragFrag.1 with
    | some p => p
    | none => (prefragFrag.1, [])
  { scheme := String.mk schemeRest.1
    netloc := String.mk netlocRest.1
    path := String.mk pathQuery.1
    query := String.mk pathQuery.2
    fragment := String.mk prefragFrag.2 }

/-- Model of urllib.parse.urlsplit with the empty default scheme. -/
def pyUrlsplit (url : String) : SplitResult :=
  pyUrlsplitD url ""

/-- The reassembly that urllib.parse.urlunsplit performs before the
fragment is attached: netloc (or a path beginning with a double slash)
is introduced by a double slash, the scheme by a colon, the query by a
question mark. -/
def unsplitBase (r : SplitResult) : String :=
  let url := r.path
  let url :=
    if r.netloc ≠ "" ∨ (url ≠ "" ∧ url.data.take 2 = ['/', '/']) then
      let url2 := if url ≠ "" ∧ ¬ strStartsWith url "/" then "/" ++ url else url
      "//" ++ r.netloc ++ url2
    else url
  let url := if r.scheme ≠ "" then r.scheme ++ ":" ++ url else url
  if r.query ≠ "" then url ++ "?" ++ r.query else url

/-- Model of urllib.parse.urlunsplit: the base reassembly followed by the
fragment after a hash whenever the fragment is nonempty. -/
def pyUrlunsplit (r : SplitResult) : String :=
  if r.fragment = "" then unsplitBase r
  else unsplitBase r ++ "#" ++ r.fragment

/-- Model of clean_url (cli.py lines 34 to 38): run a url through urlsplit
and urlunsplit. -/
def cleanUrl (url : String) : String :=
  pyUrlunsplit (pyUrlsplit url)

/-! ### urllib.parse.urljoin (cli.py line 114) -/

/-- The uses_relative scheme list of urllib.parse in Python 3.5. -/
def usesRelative : List String :=
  ["ftp", "http", "gopher", "nntp", "imap", "wais", "file", "https", "shttp",
   "mms", "prospero", "rtsp", "rtspu", "", "sftp", "svn", "svn+ssh", "ws", "wss"]

/-- The uses_netloc scheme list of urllib.parse in Python 3.5. -/
def usesNetloc : List String :=
  ["ftp", "http", "gopher", "nntp", "telnet", "imap", "wais", "file", "mms",
   "https", "shttp", "snews", "prospero", "rtsp", "rtspu", "rsync", "", "svn",
   "svn+ssh", "sftp", "nfs", "git", "git+ssh", "ws", "wss"]

/-- Keep the first and last segment and drop empty middle segments, the
filter urljoin applies to the merged segment list. -/
def filterInnerEmpty : List String → List String
  | [] => []
  | [s] => [s]
  | first :: rest => first :: (rest.dropLast.filter (· != "")) ++ rest.getLast?.toList

/-- The dot segment resolution loop of urljoin: dotdot pops the last
resolved segment when there is one, dot is skipped, everything else is
appended. -/
def resolveSegments (segs : List String) : List String :=
  segs.foldl
    (fun acc seg =>
      if seg = ".." then acc.dropLast
      else if seg = "." then acc
      else acc ++ [seg])
    []

/-- Model of urllib.parse.urljoin as implemented in Python 3.5 (RFC 3986
style merge): empty base or url short circuit, scheme and netloc
inheritance, and relative path merge with dot segment resolution.  The
params component of urlparse (a semicolon suffix of the last path
segment) is not separated; this only matters for urls carrying params,
which the program never constructs. -/
def pyUrljoin (base url : String) : String :=
  if base = "" then url
  else if url = "" then base
  else
    let b := pyUrlsplitD base ""
    let r := pyUrlsplitD url b.scheme
    if r.scheme ≠ b.scheme ∨ ¬ usesRelative.contains r.scheme then url
    else if usesNetloc.contains r.scheme ∧ r.netloc ≠ "" then pyUrlunsplit r
    else
      let netloc := if usesNetloc.contains r.scheme then b.netloc else r.netloc
      if r.path = "" then
        pyUrlunsplit
          { scheme := r.scheme, netloc := netloc, path := b.path
            query := if r.query = "" then b.query else r.query
            fragment := r.fragment }
      else
        let baseParts := strSplit '/' b.path
        let baseParts := if baseParts.getLast? ≠ some "" then baseParts.dropLast else baseParts
        let segments :=
          if strStartsWith r.path "/" then strSplit '/' r.path
          else filterInnerEmpty (baseParts ++ strSplit '/' r.path)
        let resolved := resolveSegments segments
        let resolved :=
          if segments.getLast? = some "." ∨ segments.getLast? = some ".." then resolved ++ [""]
          else resolved
        let newPath := strJoin '/' resolved
        let newPath := if newPath = "" then "/" else newPath
        pyUrlunsplit
          { scheme := r.scheme, netloc := netloc, path := newPath
            query := r.query, fragment := r.fragment }

/-! ### fnmatch (cli.py line 129) -/

/-- Tokens of a translated fnmatch pattern: star matches any sequence,
anyChar matches one character, lit matches one literal character, and
charClass matches one character against ranges with optional negation. -/
inductive GlobTok where
  | star : GlobTok
  | anyChar : GlobTok
  | lit : Char → GlobTok
  | charClass : Bool → List (Char × Char) → GlobTok
deriving DecidableEq, Repr

/-- Ranges of a character class body: a dash between two characters forms
a range, any other character stands for itself. -/
def classRanges : List Char → List (Char × Char)
  | a :: '-' :: b :: rest => (a, b) :: classRanges rest
  | a :: rest => (a, a) :: classRanges rest
  | [] => []

/-- Tokenizer for fnmatch patterns, following fnmatch.translate: star and
question mark are wildcards; an opening bracket starts a class whose body
runs to the next closing bracket, where a leading exclamation mark
negates and a closing bracket right after the opening (or after the
negation) is literal; an opening bracket with no closing bracket is a
literal character.  The fuel argument is the length of the input and
never runs out. -/
def parseGlobAux : Nat → List Char → List GlobTok
  | 0, _ => []
  | _, [] => []
  | fuel + 1, '*' :: rest => GlobTok.star :: parseGlobAux fuel rest
  | fuel + 1, '?' :: rest => GlobTok.anyChar :: parseGlobAux fuel rest
  | fuel + 1, '[' :: rest =>
    let neg : Bool := rest.head? = some '!'
    let body := if neg then rest.tail else rest
    let closeIdx : Option Nat :=
      match body with
      | ']' :: more => (findCharIdx ']' more).map (· + 1)
      | _ => findCharIdx ']' body
    match closeIdx with
    | some j =>
      GlobTok.charClass neg (classRanges (body.take j)) :: parseGlobAux fuel (body.drop (j + 1))
    | none => GlobTok.lit '[' :: parseGlobAux fuel rest
  | fuel + 1, c :: rest => GlobTok.lit c :: parseGlobAux fuel rest

/-- Tokenize an fnmatch pattern. -/
def parseGlob (cs : List Char) : List GlobTok :=
  parseGlobAux cs.length cs

/-- Membership of a character in class ranges. -/
def inRanges (rs : List (Char × Char)) (c : Char) : Bool :=
  rs.any (fun p => decide (p.1 ≤ c ∧ c ≤ p.2))

/-- Full match of a character list against glob tokens, the semantics of
the regular expression fnmatch.translate produces (star crosses slashes,
as in Python fnmatch).  Every recursive call shortens the pattern or the
input, so the fuel the wrapper below supplies never runs out. -/
def globMatchAux : Nat → List GlobTok → List Char → Bool
  | 0, _, _ => false
  | _ + 1, [], [] => true
  | fuel + 1, GlobTok.star :: ps, [] => globMatchAux fuel ps []
  | _ + 1, _ :: _, [] => false
  | _ + 1, [], _ :: _ => false
  | fuel + 1, GlobTok.star :: ps, c :: cs =>
    globMatchAux fuel ps (c :: cs) || globMatchAux fuel (GlobTok.star :: ps) cs
  | fuel + 1, GlobTok.anyChar :: ps, _ :: cs => globMatchAux fuel ps cs
  | fuel + 1, GlobTok.lit a :: ps, c :: cs => a == c && globMatchAux fuel ps cs
  | fuel + 1, GlobTok.charClass neg rs :: ps, c :: cs =>
    (inRanges rs c != neg) && globMatchAux fuel ps cs

/-- Full glob match with sufficient fuel. -/
def globMatch (ps : List GlobTok) (cs : List Char) : Bool :=
  globMatchAux (ps.length + cs.length + 1) ps cs

/-- Model of fnmatch.fnmatch on posix (normcase is the identity there). -/
def pyFnmatch (name pat : String) : Bool :=
  globMatch (parseGlob pat.data) name.data

/-! ### Configuration (cli.py lines 17 and 149 to 186) -/

/-- The command line arguments of main (cli.py lines 151 to 158); the
exclude-from file is represented by its list of lines. -/
structure Args where
  url : String
  outputDir : String
  parallel : Nat
  clobber : Bool
  delay : Nat
  exclude : List String
  excludeFromLines : List String
  verbose : Bool
deriving DecidableEq, Repr

/-- The data carried by the ScrapeConfig namedtuple (cli.py line 17), kept
to its value components: output root, base url, the parallelism that
sizes both the semaphore and the worker pool, the delay, and the exclude
patterns.  The loop, executor, visited list, futures list and semaphore
object are runtime state modelled separately. -/
structure ScrapeConfig where
  output : String
  baseUrl : String
  parallel : Nat
  delay : Nat
  exclude : List String
deriving DecidableEq, Repr

/-- Model of the configuration construction in main (cli.py lines 166 to
186): excludes are the command line patterns followed by the stripped
nonempty lines of the exclude-from file, the output root is normpathed,
the base url canonicalized, and the parallel value feeds the semaphore
and the pool.  The namedtuple has no field for the clobber flag and no
other code reads it. -/
def mkConfig (a : Args) : ScrapeConfig :=
  { output := pyNormpath a.outputDir
    baseUrl := cleanUrl a.url
    parallel := a.parallel
    delay := a.delay
    exclude := a.exclude ++ ((a.excludeFromLines.map pyStrip).filter (· != "")) }

/-! ### Resumable file writer stream_to_file (cli.py lines 60 to 93) -/

/-- A requests response as stream_to_file sees it: status code, the
Content-Length header when present and numeric, and the body bytes that
iter_content would yield. -/
structure PyResponse where
  status : Nat
  contentLength : Option Nat
  body : List Nat
deriving DecidableEq, Repr

/-- How one call of stream_to_file ends, as the completion reconciler
(cli.py lines 134 to 146) classifies it: success returns the url and
path pair, AlreadyDownloadedException is the already complete outcome,
every other exception is a failure.  failTraversal is the directory
traversal exception of line 62, failNoLength the TypeError int raises on
a missing Content-Length, failRange the exception raise_for_status
raises on the ranged request. -/
inductive Outcome where
  | success : String → String → Outcome
  | alreadyComplete : Outcome
  | failTraversal : Outcome
  | failNoLength : Outcome
  | failRange : Nat → Outcome
deriving DecidableEq, Repr

/-- Observable effects of one stream_to_file call: the outcome, how many
times options.semaphore.release ran, the ranged requests issued as url
and Range header value pairs, the resulting local file content, and
whether the file was opened for writing. -/
structure WriterResult where
  outcome : Outcome
  releases : Nat
  requests : List (String × String)
  fs : Option (List Nat)
  wrote : Bool
deriving DecidableEq, Repr

/-- The Range header value built on cli.py line 81. -/
def rangeHeader (fsize remoteSize : Nat) : String :=
  "bytes=" ++ toString fsize ++ "-" ++ toString remoteSize

/-- Model of stream_to_file (cli.py lines 60 to 93).  net maps a url and
a Range header value to the response of the re-issued GET of line 81.
fs is the state of the local file at local_path (none when the file does
not exist, otherwise its bytes).  The guard of lines 61 and 62 raises
before the try block, so no release happens on that path; every path
inside the try releases exactly once through the finally block.  When
the file exists and the sizes differ, the ranged response is checked by
raise_for_status and then written through open(local_path, "wb"), which
truncates, so the file ends up holding exactly the ranged body. -/
def streamToFile (net : String → String → PyResponse) (fs : Option (List Nat))
    (response : PyResponse) (url : String) (options : ScrapeConfig)
    (localPath : String) : WriterResult :=
  if ¬ strStartsWith localPath options.output then
    { outcome := Outcome.failTraversal, releases := 0, requests := [], fs := fs, wrote := false }
  else
    match fs with
    | some content =>
      match response.contentLength with
      | none =>
        { outcome := Outcome.failNoLength, releases := 1, requests := [], fs := fs, wrote := false }
      | some remoteSize =>
        if content.length = remoteSize then
          { outcome := Outcome.alreadyComplete, releases := 1, requests := [],
            fs := fs, wrote := false }
        else
          let hdr := rangeHeader content.length remoteSize
          let ranged := net url hdr
          if 400 ≤ ranged.status then
            { outcome := Outcome.failRange ranged.status, releases := 1,
              requests := [(url, hdr)], fs := fs, wrote := false }
          else
            { outcome := Outcome.success url localPath, releases := 1,
              requests := [(url, hdr)], fs := some ranged.body, wrote := true }
    | none =>
      { outcome := Outcome.success url localPath, releases := 1, requests := [],
        fs := some response.body, wrote := true }

/-! ### The per url step of scrape_url (cli.py lines 96 to 133) -/

/-- Network side effects of one scrape_url activation before any
recursion: the GET of line 104 and, for a dispatched file, the submit of
line 133 recorded with the computed local path. -/
inductive Ev where
  | get : String → Ev
  | dispatch : String → String → Ev
deriving DecidableEq, Repr

/-- The url suffix of cli.py line 126: the url with the base url length
sliced off, percent decoded. -/
def urlSuffix (options : ScrapeConfig) (url : String) : String :=
  pyUnquote (strDrop url (strLen options.baseUrl))

/-- The local path of cli.py line 127: the suffix joined onto the output
root and normpathed. -/
def localPathFor (options : ScrapeConfig) (url : String) : String :=
  pyNormpath (pyJoin options.output (urlSuffix options url))

/-- Model of one scrape_url activation for a url, with recursion into
links elided (the crawl model below covers it): the GET always happens
first; a non 200 status stops the branch; an html content type goes to
link parsing; otherwise the exclude patterns are matched against the
suffix in order and a match stops the branch before the semaphore
acquire and submit, while no match dispatches the download. -/
def scrapeUrlStep (options : ScrapeConfig) (url : String) (status : Nat)
    (contentType : String) : List Ev :=
  if status ≠ 200 then [Ev.get url]
  else if strContains contentType "text/html" then [Ev.get url]
  else if options.exclude.any (fun pat => pyFnmatch (urlSuffix options url) pat) then
    [Ev.get url]
  else [Ev.get url, Ev.dispatch url (localPathFor options url)]

/-! ### The recursive traversal of scrape_url (cli.py lines 96 to 122) -/

/-- What the network answers a GET with, as the traversal distinguishes
it: a non 200 status, an html page carrying raw hrefs, or a file. -/
inductive Page where
  | html : List String → Page
  | file : Page
  | fetchError : Nat → Page

/-- Traversal state: the visited list of cli.py line 102 and the list of
urls a GET was issued for (line 104). -/
structure CrawlState where
  visited : List String
  fetched : List String

/-- Model of the recursive traversal of scrape_url: the url is appended
to visited and fetched, and for an html page each href is resolved with
urljoin, canonicalized with clean_url, discarded when it does not start
with the base url or was already visited, and recursed into otherwise
(cli.py lines 113 to 121).  Fuel bounds the recursion depth; the
properties proved below hold for every fuel. -/
def crawl (net : String → Page) (base : String) : Nat → String → CrawlState → CrawlState
  | 0, _, st => st
  | fuel + 1, url, st =>
    let st1 : CrawlState := { visited := st.visited ++ [url], fetched := st.fetched ++ [url] }
    match net url with
    | Page.fetchError _ => st1
    | Page.file => st1
    | Page.html hrefs =>
      hrefs.foldl
        (fun acc link =>
          let dest := cleanUrl (pyUrljoin url link)
          if strStartsWith dest base = true ∧ dest ∉ acc.visited then
            crawl net base fuel dest acc
          else acc)
        st1

/-! ### Download scheduler (cli.py lines 132 to 133, 171, 184, 87 to 92) -/

/-- Scheduler state: permits left in the asyncio semaphore and downloads
currently executing in the thread pool. -/
structure SemState where
  avail : Nat
  running : Nat
deriving DecidableEq, Repr

/-- Transitions of the download scheduler: dispatch models the semaphore
acquire of line 132 followed by the submit of line 133 and consumes a
permit; finishRelease models a download ending through the finally block
of lines 87 to 92, returning its permit; finishNoRelease models a
download ending through the traversal guard of lines 61 and 62, which
raises before the try block and returns no permit. -/
inductive DlStep : SemState → SemState → Prop where
  | dispatch (a r : Nat) : 0 < a → DlStep ⟨a, r⟩ ⟨a - 1, r + 1⟩
  | finishRelease (a r : Nat) : 0 < r → DlStep ⟨a, r⟩ ⟨a + 1, r - 1⟩
  | finishNoRelease (a r : Nat) : 0 < r → DlStep ⟨a, r⟩ ⟨a, r - 1⟩

/-- States the scheduler can reach from the start state main sets up: a
semaphore with limit permits (line 184) and no running download. -/
def DlReachable (limit : Nat) (s : SemState) : Prop :=
  Relation.ReflTransGen DlStep { avail := limit, running := 0 } s

/-! ### Spec side containment predicate and concrete fixtures -/

/-- Modelled from the spec: the spec requires the computed local path to
be, after normalization, contained within the configured output root.  A
path is contained when it is the root itself or lies below it past a
path separator.  The code instead compares by bare string prefix; this
definition exists to be compared with that check. -/
def specContainedIn (p root : String) : Bool :=
  p == root || (root ++ "/").data.isPrefixOf p.data

/-- A configuration with output root /out and base url http://h/. -/
def optsOut : ScrapeConfig :=
  { output := "/out", baseUrl := "http://h/", parallel := 5, delay := 0, exclude := [] }

/-- The same configuration with one exclude pattern. -/
def optsBin : ScrapeConfig :=
  { optsOut with exclude := ["*.bin"] }

/-- A 200 response of the given length whose Content-Length agrees. -/
def respLen (n : Nat) : PyResponse :=
  { status := 200, contentLength := some n, body := List.replicate n 7 }

/-- A network whose ranged responses are empty 200 responses with no
Content-Length; used where the ranged request does not matter. -/
def netNull : String → String → PyResponse :=
  fun _ _ => { status := 200, contentLength := none, body := [] }

/-- A resume scenario run of the writer: the local file holds 100 bytes,
the remote resource reports Content-Length 256, and the ranged request
answers 206 with the missing 156 bytes, as a compliant server does for
the range bytes=100-256 of a 256 byte resource. -/
def resumeRun : WriterResult :=
  streamToFile
    (fun _ _ => { status := 206, contentLength := some 256, body := List.replicate 156 9 })
    (some (List.replicate 100 0))
    { status := 200, contentLength := some 256, body := [] }
    "http://h/f" optsOut "/out/f"

/-- The invariant the traversal keeps: every url it has fetched or
visited starts with the base url. -/
def CrawlInv (base : String) (st : CrawlState) : Prop :=
  (∀ v ∈ st.fetched, strStartsWith v base = true) ∧
  (∀ v ∈ st.visited, strStartsWith v base = true)

/-! ### Helper lemmas -/

/-- A predicate preserved by each application of the folded function is
preserved by the whole fold. -/
theorem foldlPreserves {α β : Type} (P : β → Prop) (f : β → α → β)
    (hf : ∀ b a, P b → P (f b a)) :
    ∀ (l : List α) (b : β), P b → P (List.foldl f b l)
  | [], _, hb => hb
  | a :: l, b, hb => foldlPreserves P f hf l (f b a) (hf b a hb)

/-- Appending a base prefixed url keeps a list of base prefixed urls. -/
theorem appendKeepsInv (base url : String) (hu : strStartsWith url base = true) :
    ∀ (l : List String), (∀ v ∈ l, strStartsWith v base = true) →
      ∀ v ∈ l ++ [url], strStartsWith v base = true := by
  intro l hl v hv
  rcases List.mem_append.mp hv with h | h
  · exact hl v h
  · rcases List.mem_singleton.mp h with rfl
    exact hu

/-- The traversal preserves the containment invariant: starting from a
state whose fetched and visited urls all carry the base prefix, and from
a root url carrying it, every state the crawl produces again has only
base prefixed urls, because line 115 discards any resolved link without
the prefix before recursing. -/
theorem crawl_inv (net : String → Page) (base : String) :
    ∀ (fuel : Nat) (url : String) (st : CrawlState),
      strStartsWith url base = true → CrawlInv base st →
      CrawlInv base (crawl net base fuel url st) := by
  intro fuel
  induction fuel with
  | zero =>
    intro url st _ hst
    simpa [crawl] using hst
  | succ n ih =>
    intro url st hu hst
    have hst1 : CrawlInv base ⟨st.visited ++ [url], st.fetched ++ [url]⟩ :=
      ⟨appendKeepsInv base url hu st.fetched hst.1,
       appendKeepsInv base url hu st.visited hst.2⟩
    show CrawlInv base (crawl net base (n + 1) url st)
    simp only [crawl]
    cases net url with
    | fetchError code => exact hst1
    | file => exact hst1
    | html hrefs =>
      refine foldlPreserves (CrawlInv base) _ ?_ hrefs _ hst1
      intro acc link hacc
      by_cases hc : strStartsWith (cleanUrl (pyUrljoin url link)) base = true ∧
          cleanUrl (pyUrljoin url link) ∉ acc.visited
      · rw [if_pos hc]
        exact ih (cleanUrl (pyUrljoin url link)) acc hc.1 hacc
      · rw [if_neg hc]
        exact hacc

/-- Along every reachable scheduler state, the permits left plus the
running downloads never exceed the limit: dispatch trades a permit for a
running download, a releasing finish trades back, and a leaking finish
only loses capacity. -/
theorem dlReachable_sum_le (limit : Nat) (s : SemState) (h : DlReachable limit s) :
    s.avail + s.running ≤ limit := by
  induction h with
  | refl => simp
  | tail _ hstep ih =>
    cases hstep <;> simp_all <;> omega

/-! ### Claim theorems -/

/-- C1: the resume path does re-issue the GET with Range bytes=S-R, but
the code opens the file with mode wb, which truncates, so the returned
bytes are not appended: with a 100 byte local file and Content-Length
256 the resulting file holds exactly the 156 ranged bytes, not 256
bytes.  This evaluates the writer at that failing input. -/
theorem resume_truncates_instead_of_appending :
    resumeRun.requests = [("http://h/f", rangeHeader 100 256)] ∧
    rangeHeader 100 256 = "bytes=100-256" ∧
    resumeRun.fs.map List.length = some 156 ∧
    ¬ resumeRun.fs.map List.length = some 256 := by
  decide

/-- C2: the semaphore is released exactly once on every path inside the
try block, but the directory traversal guard raises before the try
block, so a guard rejection releases the permit zero times; the claim
that release happens exactly once regardless of outcome fails there.
This evaluates the release count on the guard rejection path and on the
success, already complete, resume, range failure and missing length
paths. -/
theorem permit_leak_on_traversal_guard :
    (streamToFile netNull none (respLen 3) "u" optsOut "/evil/f").outcome = Outcome.failTraversal ∧
    (streamToFile netNull none (respLen 3) "u" optsOut "/evil/f").releases = 0 ∧
    (streamToFile netNull none (respLen 3) "u" optsOut "/out/f").releases = 1 ∧
    (streamToFile netNull (some [1, 2, 3]) (respLen 3) "u" optsOut "/out/f").releases = 1 ∧
    (streamToFile netNull (some [1, 2]) (respLen 3) "u" optsOut "/out/f").releases = 1 ∧
    (streamToFile (fun _ _ => { status := 416, contentLength := none, body := [] })
        (some [1, 2]) (respLen 3) "u" optsOut "/out/f").releases = 1 ∧
    (streamToFile netNull (some [1, 2])
        { status := 200, contentLength := none, body := [] } "u" optsOut "/out/f").releases = 1 := by
  decide

/-- C3: in every reachable scheduler state the number of concurrently
executing download tasks is at most the configured parallelism: a permit
is taken before each dispatch and a finished download returns at most
one permit, so permits plus running downloads never exceed the limit. -/
theorem concurrency_bound (limit : Nat) (s : SemState) (h : DlReachable limit s) :
    s.running ≤ limit := by
  have := dlReachable_sum_le limit s h
  omega

/-- Witness for C3 at a concrete reachable state. -/
theorem concurrency_bound_witness :
    DlReachable 5 { avail := 5, running := 0 } ∧
    ({ avail := 5, running := 0 } : SemState).running ≤ 5 :=
  ⟨Relation.ReflTransGen.refl, concurrency_bound 5 _ Relation.ReflTransGen.refl⟩

/-- C4: the guard is a bare string prefix test, so the normalized path
/outbreak/evil, which is not contained within the output root /out, is
accepted and the file is written with a success outcome instead of
failing.  This evaluates the writer at that failing input. -/
theorem traversal_guard_accepts_sibling_path :
    pyNormpath "/outbreak/evil" = "/outbreak/evil" ∧
    specContainedIn "/outbreak/evil" "/out" = false ∧
    strStartsWith "/outbreak/evil" "/out" = true ∧
    (streamToFile netNull none (respLen 3) "http://h/x" optsOut "/outbreak/evil").outcome =
      Outcome.success "http://h/x" "/outbreak/evil" ∧
    (streamToFile netNull none (respLen 3) "http://h/x" optsOut "/outbreak/evil").wrote = true := by
  decide

/-- C5: the clobber flag is parsed but never used: the configuration
main builds is identical whether clobber is set or not (the ScrapeConfig
namedtuple has no clobber field), and with an existing local file the
writer still resumes with a range request, or reports already complete
on equal sizes, never a download from byte zero. -/
theorem clobber_flag_ignored :
    (∀ a : Args, mkConfig { a with clobber := true } = mkConfig { a with clobber := false }) ∧
    resumeRun.requests = [("http://h/f", "bytes=100-256")] ∧
    (streamToFile netNull (some [1, 2, 3]) (respLen 3) "u" optsOut "/out/f").outcome =
      Outcome.alreadyComplete :=
  ⟨fun _ => rfl, by decide, by decide⟩

/-- C6 counterexample: a url whose suffix matches a configured exclude
pattern is still fetched over the network, because scrape_url issues the
GET of line 104 before the exclude loop of line 128 runs. -/
theorem excluded_url_still_fetched :
    pyFnmatch (urlSuffix optsBin "http://h/sub/b.bin") "*.bin" = true ∧
    Ev.get "http://h/sub/b.bin" ∈
      scrapeUrlStep optsBin "http://h/sub/b.bin" 200 "application/octet-stream" := by
  decide

/-- C6 amended: when the url suffix matches a configured exclude pattern
the url is never dispatched to the download pool, so it produces no
Success, Failure or AlreadyComplete outcome; the initial GET is issued
nonetheless. -/
theorem excluded_url_never_dispatched (options : ScrapeConfig) (url : String)
    (status : Nat) (contentType : String) (u lp : String)
    (hex : options.exclude.any (fun pat => pyFnmatch (urlSuffix options url) pat) = true) :
    Ev.dispatch u lp ∉ scrapeUrlStep options url status contentType ∧
    Ev.get url ∈ scrapeUrlStep options url status contentType := by
  refine ⟨?_, ?_⟩ <;> simp [scrapeUrlStep, hex]

/-- Witness for the amended C6 at a concrete excluded url. -/
theorem excluded_url_never_dispatched_witness :
    optsBin.exclude.any
      (fun pat => pyFnmatch (urlSuffix optsBin "http://h/sub/b.bin") pat) = true ∧
    (Ev.dispatch "http://h/sub/b.bin" "/out/sub/b.bin" ∉
        scrapeUrlStep optsBin "http://h/sub/b.bin" 200 "application/octet-stream" ∧
      Ev.get "http://h/sub/b.bin" ∈
        scrapeUrlStep optsBin "http://h/sub/b.bin" 200 "application/octet-stream") :=
  ⟨by decide,
   excluded_url_never_dispatched optsBin "http://h/sub/b.bin" 200 "application/octet-stream"
     "http://h/sub/b.bin" "/out/sub/b.bin" (by decide)⟩

/-- C7: a discovered link whose canonicalized resolution does not start
with the base url is never fetched and never recursed into: in every
state the crawl reaches from the base url, neither the fetched list nor
the visited list contains it. -/
theorem scope_containment (net : String → Page) (base root u L : String) (fuel : Nat)
    (hroot : strStartsWith root base = true)
    (hbad : strStartsWith (cleanUrl (pyUrljoin u L)) base = false) :
    cleanUrl (pyUrljoin u L) ∉ (crawl net base fuel root ⟨[], []⟩).fetched ∧
    cleanUrl (pyUrljoin u L) ∉ (crawl net base fuel root ⟨[], []⟩).visited := by
  have hinv := crawl_inv net base fuel root ⟨[], []⟩ hroot
    ⟨fun v hv => absurd hv (List.not_mem_nil v), fun v hv => absurd hv (List.not_mem_nil v)⟩
  constructor <;> intro hmem
  · have h1 := hinv.1 _ hmem
    rw [hbad] at h1
    exact Bool.false_ne_true h1
  · have h2 := hinv.2 _ hmem
    rw [hbad] at h2
    exact Bool.false_ne_true h2

/-- Witness for C7: a page on the base host links to another host; the
resolved link is outside the base and appears in no reachable state. -/
theorem scope_containment_witness :
    strStartsWith "http://h/" "http://h/" = true ∧
    strStartsWith (cleanUrl (pyUrljoin "http://h/" "http://evil/x")) "http://h/" = false ∧
    (cleanUrl (pyUrljoin "http://h/" "http://evil/x") ∉
        (crawl (fun _ => Page.html ["http://evil/x"]) "http://h/" 2 "http://h/" ⟨[], []⟩).fetched ∧
      cleanUrl (pyUrljoin "http://h/" "http://evil/x") ∉
        (crawl (fun _ => Page.html ["http://evil/x"]) "http://h/" 2 "http://h/" ⟨[], []⟩).visited) :=
  ⟨by decide, by decide,
   scope_containment (fun _ => Page.html ["http://evil/x"]) "http://h/" "http://h/" "http://h/"
     "http://evil/x" 2 (by decide) (by decide)⟩

/-- C8: when the local file exists and its size equals the remote
Content-Length, the writer ends with the already complete outcome,
issues no further request, opens nothing for writing and leaves the file
unchanged; running the writer again on the resulting state ends already
complete again, which gives the idempotent second crawl. -/
theorem already_complete_no_work (net net2 : String → String → PyResponse)
    (content : List Nat) (resp resp2 : PyResponse) (url url2 : String)
    (options : ScrapeConfig) (localPath : String) (r : Nat)
    (hguard : strStartsWith localPath options.output = true)
    (hcl : resp.contentLength = some r) (hlen : content.length = r)
    (hcl2 : resp2.contentLength = some r) :
    (streamToFile net (some content) resp url options localPath).outcome =
      Outcome.alreadyComplete ∧
    (streamToFile net (some content) resp url options localPath).requests = [] ∧
    (streamToFile net (some content) resp url options localPath).wrote = false ∧
    (streamToFile net (some content) resp url options localPath).fs = some content ∧
    (streamToFile net2 ((streamToFile net (some content) resp url options localPath).fs)
        resp2 url2 options localPath).outcome = Outcome.alreadyComplete := by
  refine ⟨?_, ?_, ?_, ?_, ?_⟩ <;> simp [streamToFile, hguard, hcl, hlen, hcl2]

/-- Witness for C8 at a concrete complete file. -/
theorem already_complete_no_work_witness :
    (strStartsWith "/out/f" optsOut.output = true ∧
      (respLen 3).contentLength = some 3 ∧ ([7, 7, 7] : List Nat).length = 3) ∧
    ((streamToFile netNull (some [7, 7, 7]) (respLen 3) "u" optsOut "/out/f").outcome =
        Outcome.alreadyComplete ∧
      (streamToFile netNull (some [7, 7, 7]) (respLen 3) "u" optsOut "/out/f").requests = [] ∧
      (streamToFile netNull (some [7, 7, 7]) (respLen 3) "u" optsOut "/out/f").wrote = false ∧
      (streamToFile netNull (some [7, 7, 7]) (respLen 3) "u" optsOut "/out/f").fs =
        some [7, 7, 7] ∧
      (streamToFile netNull
          ((streamToFile netNull (some [7, 7, 7]) (respLen 3) "u" optsOut "/out/f").fs)
          (respLen 3) "u2" optsOut "/out/f").outcome = Outcome.alreadyComplete) :=
  ⟨⟨by decide, by decide, by decide⟩,
   already_complete_no_work netNull netNull [7, 7, 7] (respLen 3) (respLen 3) "u" "u2"
     optsOut "/out/f" 3 (by decide) (by decide) (by decide) (by decide)⟩

/-- C9 counterexample: clean_url reassembles the fragment too, so a url
with a fragment canonicalizes to itself with the fragment kept, and two
urls differing only in their fragment canonicalize differently. -/
theorem clean_url_keeps_fragment :
    cleanUrl "http://host/a#b" = "http://host/a#b" ∧
    cleanUrl "http://host/a" = "http://host/a" ∧
    ¬ cleanUrl "http://host/a#b" = cleanUrl "http://host/a" ∧
    (pyUrlsplit "http://host/a#b").fragment = "b" ∧
    strContains (cleanUrl "http://host/a#b") "#" = true := by
  decide

/-- C9 amended: the canonicalizer is a pure function that reassembles
scheme, host, path, query and also the fragment: whenever the split url
carries a nonempty fragment, the canonical output ends with a hash
followed by that fragment. -/
theorem clean_url_reassembles_fragment (url : String)
    (h : ¬ (pyUrlsplit url).fragment = "") :
    ∃ p, cleanUrl url = p ++ "#" ++ (pyUrlsplit url).fragment := by
  refine ⟨unsplitBase (pyUrlsplit url), ?_⟩
  unfold cleanUrl pyUrlunsplit
  rw [if_neg h]

/-- Witness for the amended C9 at a concrete url with a fragment. -/
theorem clean_url_reassembles_fragment_witness :
    ¬ (pyUrlsplit "http://host/a#b").fragment = "" ∧
    ∃ p, cleanUrl "http://host/a#b" = p ++ "#" ++ (pyUrlsplit "http://host/a#b").fragment :=
  ⟨by decide, clean_url_reassembles_fragment "http://host/a#b" (by decide)⟩

/-- C10: a crafted in scope url with encoded dot dot segments produces
the normalized local path /outbreak/evil, which lies outside the output
root /out in a sibling directory whose name extends the root string; the
prefix guard accepts it and the file is written there. -/
theorem prefix_guard_escape_exists :
    strStartsWith "http://h/%2e%2e/outbreak/evil" optsOut.baseUrl = true ∧
    urlSuffix optsOut "http://h/%2e%2e/outbreak/evil" = "../outbreak/evil" ∧
    localPathFor optsOut "http://h/%2e%2e/outbreak/evil" = "/outbreak/evil" ∧
    specContainedIn (localPathFor optsOut "http://h/%2e%2e/outbreak/evil") optsOut.output = false ∧
    (streamToFile netNull none (respLen 3) "http://h/%2e%2e/outbreak/evil" optsOut
        (localPathFor optsOut "http://h/%2e%2e/outbreak/evil")).wrote = true ∧
    (streamToFile netNull none (respLen 3) "http://h/%2e%2e/outbreak/evil" optsOut
        (localPathFor optsOut "http://h/%2e%2e/outbreak/evil")).outcome =
      Outcome.success "http://h/%2e%2e/outbreak/evil" "/outbreak/evil" := by
  decide

end Pyods
